import Mathlib

/-
Verification development for the buzzer driver (src/src/constants.js,
src/src/config.js and companions).  The JavaScript source is shallowly
embedded: pure fragments become Lean functions, the session-level mutable
fields (currentStates, isReady, readyPromise, claimed interface) become an
explicit `Session` record threaded through each operation, byte buffers
become `List Nat`, and promises are identified by numeric ids so that
"two callers hold the same promise" is expressible.
-/

namespace Buzzer

/-- Static button descriptor, mirroring one entry of `BUTTONS_DATA`
(constants.js lines 8-36): name, color label, controller number,
button index and the unique bit inside the 24-bit pressed field. -/
structure ButtonData where
  name : String
  color : String
  controller : Nat
  button : Nat
  bit : Nat
deriving DecidableEq, Repr, Inhabited

/-- The fixed 20-entry button registry `BUTTONS_DATA` of constants.js,
in source order: controllers 1 to 4, buttons 0 to 4 within each. -/
def BUTTONS_DATA : List ButtonData := [
  { name := "C1_RED", color := "red", controller := 1, button := 0, bit := 0x000001 },
  { name := "C1_BLUE", color := "blue", controller := 1, button := 1, bit := 0x000010 },
  { name := "C1_ORANGE", color := "orange", controller := 1, button := 2, bit := 0x000008 },
  { name := "C1_GREEN", color := "green", controller := 1, button := 3, bit := 0x000004 },
  { name := "C1_YELLOW", color := "yellow", controller := 1, button := 4, bit := 0x000002 },
  { name := "C2_RED", color := "red", controller := 2, button := 0, bit := 0x000020 },
  { name := "C2_BLUE", color := "blue", controller := 2, button := 1, bit := 0x000200 },
  { name := "C2_ORANGE", color := "orange", controller := 2, button := 2, bit := 0x000100 },
  { name := "C2_GREEN", color := "green", controller := 2, button := 3, bit := 0x000080 },
  { name := "C2_YELLOW", color := "yellow", controller := 2, button := 4, bit := 0x000040 },
  { name := "C3_RED", color := "red", controller := 3, button := 0, bit := 0x000400 },
  { name := "C3_BLUE", color := "blue", controller := 3, button := 1, bit := 0x004000 },
  { name := "C3_ORANGE", color := "orange", controller := 3, button := 2, bit := 0x002000 },
  { name := "C3_GREEN", color := "green", controller := 3, button := 3, bit := 0x001000 },
  { name := "C3_YELLOW", color := "yellow", controller := 3, button := 4, bit := 0x000800 },
  { name := "C4_RED", color := "red", controller := 4, button := 0, bit := 0x008000 },
  { name := "C4_BLUE", color := "blue", controller := 4, button := 1, bit := 0x080000 },
  { name := "C4_ORANGE", color := "orange", controller := 4, button := 2, bit := 0x040000 },
  { name := "C4_GREEN", color := "green", controller := 4, button := 3, bit := 0x020000 },
  { name := "C4_YELLOW", color := "yellow", controller := 4, button := 4, bit := 0x010000 }
]

/-- Event kind string `EVENTS.PRESS` (event.js). -/
def EVENTS_PRESS : String := "press"

/-- Event kind string `EVENTS.RELEASE` (event.js). -/
def EVENTS_RELEASE : String := "release"

/-- Event kind string `EVENTS.READY` (event.js). -/
def EVENTS_READY : String := "ready"

/-- Event kind string `EVENTS.ERROR` (event.js). -/
def EVENTS_ERROR : String := "error"

/-- One emission performed by the data handler: the payload of
`ee.emit(eventType, ...button, type)` carries the button descriptor, and
which of PRESS (pressed = true) or RELEASE (pressed = false) was emitted. -/
structure Transition where
  button : ButtonData
  pressed : Bool
deriving DecidableEq, Repr

/-- The event-kind string attached to a transition: `EVENTS.PRESS` when the
button is now pressed, `EVENTS.RELEASE` otherwise (constants.js line 341). -/
def transitionType (tr : Transition) : String :=
  if tr.pressed then EVENTS_PRESS else EVENTS_RELEASE

/-- The per-report update loop of the data handler (constants.js lines
334-344): for each registry entry in order, compute
`isPressedNow = (pressedBits AND button.bit) !== 0`, compare with the
snapshot `previousStates` entry of the same index, overwrite the stored
entry, and emit a transition when the two differ.  The first component is
the new `currentStates`, the second the emitted transitions in loop order.
The snapshot and the store walk in lockstep with the registry, matching the
source where both lists always have the registry's length. -/
def updateButtons (pressedBits : Nat) :
    List ButtonData → List Bool → List Bool × List Transition
  | [], _ => ([], [])
  | _ :: _, [] => ([], [])
  | b :: bs, p :: ps =>
    let isPressedNow : Bool := (pressedBits &&& b.bit) != 0
    let rest := updateButtons pressedBits bs ps
    (isPressedNow :: rest.1,
      (if isPressedNow != p then [{ button := b, pressed := isPressedNow }] else [])
        ++ rest.2)

/-- Node's `Buffer.readUInt16LE`: little-endian 16-bit read at an offset. -/
def readUInt16LE (data : List Nat) (off : Nat) : Nat :=
  data.getD off 0 + data.getD (off + 1) 0 * 256

/-- Node's `Buffer.readUInt8`: single byte read at an offset. -/
def readUInt8 (data : List Nat) (off : Nat) : Nat :=
  data.getD off 0

/-- The pressed-bit field computed by the data handler (constants.js line
332): `data.readUInt16LE(2) OR (data.readUInt8(4) shifted left 16)`. -/
def decodeField (data : List Nat) : Nat :=
  readUInt16LE data 2 ||| (readUInt8 data 4 <<< 16)

/-- The complete `endpoint.on(data)` handler (constants.js lines 328-345):
reports shorter than 5 bytes return immediately (state untouched, nothing
emitted); otherwise the pressed-bit field is decoded and the registry loop
runs against the snapshot of `currentStates`. -/
def handleData (data : List Nat) (currentStates : List Bool) :
    List Bool × List Transition :=
  if data.length < 5 then (currentStates, [])
  else updateButtons (decodeField data) BUTTONS_DATA currentStates

/-- Model of a JavaScript object field value, enough for the event shape. -/
inductive JsValue where
  | num (n : Nat)
  | str (s : String)
  | bool (b : Bool)
deriving DecidableEq, Repr

/-- The `formatEvent` function (utils.js): builds the consumer-facing event
object from the raw payload and the event kind.  Note the capitalized
field key Name in the source. -/
def formatEvent (original : ButtonData) (eventType : String) :
    List (String × JsValue) :=
  let isPressed : Bool := eventType == EVENTS_PRESS
  [ ("controller", JsValue.num original.controller),
    ("button", JsValue.num original.button),
    ("Name", JsValue.str original.name),
    ("color", JsValue.str original.color),
    ("pressed", JsValue.bool isPressed),
    ("state", JsValue.str (if isPressed then "pressed" else "released")) ]

/-- The session-level mutable fields of one `Buzzer()` closure
(constants.js lines 123-131): the stored button states, the two readiness
fields, plus bookkeeping that makes sharing observable in the model:
promises are numbered by `nextPromiseId`, and `setupsStarted` counts how
many times `setupBuzzListener()` has been invoked.  `ifaceClaimed` records
whether `iface` is non-null (set during setup, tested by `close`). -/
structure Session where
  currentStates : List Bool
  isReady : Bool
  readyPromise : Option Nat
  nextPromiseId : Nat
  setupsStarted : Nat
  ifaceClaimed : Bool
deriving DecidableEq, Repr

/-- The state of a freshly constructed `Buzzer()` object: all 20 stored
states false, not ready, no in-flight promise, nothing claimed. -/
def initialSession : Session :=
  { currentStates := List.replicate BUTTONS_DATA.length false
    isReady := false
    readyPromise := none
    nextPromiseId := 0
    setupsStarted := 0
    ifaceClaimed := false }

/-- The synchronous body of `ensureReady` (constants.js lines 366-405):
if already ready, return at once (modelled as `none`); if a promise is in
flight, hand that same promise back; otherwise start the setup sequence
exactly once, store the new shared promise and hand it back.  The returned
`Option Nat` is the promise the caller awaits. -/
def ensureReady (s : Session) : Session × Option Nat :=
  if s.isReady then (s, none)
  else
    match s.readyPromise with
    | some p => (s, some p)
    | none =>
      let pid := s.nextPromiseId
      ({ s with readyPromise := some pid
                nextPromiseId := pid + 1
                setupsStarted := s.setupsStarted + 1 },
       some pid)

/-- N sequential invocations of `ensureReady` (JavaScript runs them one at
a time on the event loop); collects the promise each caller receives. -/
def runEnsureReadyCalls : Nat → Session → Session × List (Option Nat)
  | 0, s => (s, [])
  | n + 1, s =>
    let first := ensureReady s
    let rest := runEnsureReadyCalls n first.1
    (rest.1, first.2 :: rest.2)

/-- Observable effect of the `.catch` handler chained onto the setup
promise (constants.js lines 398-402). -/
structure FailureEffect where
  session : Session
  emittedEvents : List String
  rejectsWith : Option String
deriving DecidableEq, Repr

/-- The `.catch` handler of `ensureReady` (constants.js lines 398-402):
wraps the error in a CustomError with message `err.message OR a default`,
publishes an Error event, and rethrows, so the shared promise rejects with
that CustomError.  The handler assigns to no session field. -/
def setupCatchHandler (s : Session) (errMessage : String) : FailureEffect :=
  let msg := if errMessage = "" then "Setup failed" else errMessage
  { session := s
    emittedEvents := [EVENTS_ERROR]
    rejectsWith := some msg }

/-- The `close` function (constants.js lines 520-541): when an interface
was claimed, polling stops, the handles are released and the release
callback clears `isReady` and `readyPromise`; otherwise it resolves
immediately having changed nothing.  `currentStates` is assigned in
neither branch. -/
def close (s : Session) : Session :=
  if s.ifaceClaimed then { s with isReady := false, readyPromise := none }
  else s

/-- The `ensureReady` call performed when `onPress` subscribes
(constants.js line 431): its effect on the session. -/
def onPressSubscribe (s : Session) : Session :=
  (ensureReady s).1

/-- LED byte encoding: `player ? 0xFF : 0x00` (constants.js lines 241-244). -/
def byteOf (b : Bool) : Nat :=
  if b then 0xFF else 0x00

/-- The 8-byte primary LED report built by `privateSetLeds`
(constants.js lines 238-246). -/
def ledPrimaryReport (p1 p2 p3 p4 : Bool) : List Nat :=
  [0x00, 0x00, byteOf p1, byteOf p2, byteOf p3, byteOf p4, 0x00, 0x00]

/-- The 6-byte fallback LED report built in the catch branch of
`privateSetLeds` (constants.js lines 251-257). -/
def ledFallbackReport (p1 p2 p3 p4 : Bool) : List Nat :=
  [0x00, 0x00, byteOf p1, byteOf p2, byteOf p3, byteOf p4]

/-- Observable effect of one `privateSetLeds` call: the reports written to
the HID device in order, how many Error events were published, and whether
the missing-device warning was printed. -/
structure LedWriteResult where
  writes : List (List Nat)
  errorEvents : Nat
  warned : Bool
deriving DecidableEq, Repr

/-- The `privateSetLeds` function (constants.js lines 232-267).  The HID
transport is abstracted as the oracle `writeOk` (true when `hidDevice.write`
returns, false when it throws).  Every path is `Except.ok`: the source wraps
both writes in try/catch blocks and never rethrows, so no value escapes as
an exception. -/
def privateSetLeds (hidAvailable : Bool) (writeOk : List Nat → Bool)
    (p1 p2 p3 p4 : Bool) : Except String LedWriteResult :=
  if !hidAvailable then
    Except.ok { writes := [], errorEvents := 0, warned := true }
  else
    let report := ledPrimaryReport p1 p2 p3 p4
    if writeOk report then
      Except.ok { writes := [report], errorEvents := 0, warned := false }
    else
      let shortReport := ledFallbackReport p1 p2 p3 p4
      if writeOk shortReport then
        Except.ok { writes := [report, shortReport], errorEvents := 0, warned := false }
      else
        Except.ok { writes := [report, shortReport], errorEvents := 1, warned := false }

/-- Observable result of a public API call: the session afterwards, the
reports written, and the rejection surfaced to the caller, if any. -/
structure ApiResult where
  session : Session
  writes : List (List Nat)
  thrown : Option String
deriving Repr

/-- The `setLeds` function (constants.js lines 280-283): awaits
`ensureReady`, then runs `privateSetLeds`.  `setupSucceeds` abstracts
whether the awaited setup promise resolves; when it rejects, the rejection
propagates to the caller and no write happens. -/
def setLeds (s : Session) (setupSucceeds hidAvailable : Bool)
    (writeOk : List Nat → Bool) (p1 p2 p3 p4 : Bool) : ApiResult :=
  let stepped := ensureReady s
  if setupSucceeds then
    match privateSetLeds hidAvailable writeOk p1 p2 p3 p4 with
    | Except.ok r => { session := stepped.1, writes := r.writes, thrown := none }
    | Except.error e => { session := stepped.1, writes := [], thrown := some e }
  else
    { session := stepped.1, writes := [], thrown := some "Setup failed" }

/-- The `setLedsarray` function (constants.js lines 292-297): a value that
is not a 4-element array makes it throw the CustomError immediately,
before `setLeds` (and hence `ensureReady`) is ever invoked. -/
def setLedsarray (players : List Bool) (s : Session)
    (setupSucceeds hidAvailable : Bool) (writeOk : List Nat → Bool) : ApiResult :=
  if players.length = 4 then
    setLeds s setupSucceeds hidAvailable writeOk
      (players.getD 0 false) (players.getD 1 false)
      (players.getD 2 false) (players.getD 3 false)
  else
    { session := s, writes := [], thrown := some "Invalid array: must be boolean[4]" }

/-- Node.js `EventEmitter.prototype.emit` as used through `ee`
(constants.js line 121 and the `ee.emit` calls): listeners run
synchronously in subscription order; a listener that throws propagates its
exception out of `emit`, so later listeners are not invoked.  A listener is
abstracted as `payload → Bool` (false = it throws).  The result is the
number of listeners invoked and whether `emit` completed normally. -/
def emitToListeners : List (Nat → Bool) → Nat → Nat × Bool
  | [], _ => (0, true)
  | l :: ls, a =>
    if l a then
      let rest := emitToListeners ls a
      (rest.1 + 1, rest.2)
    else (1, false)

/-- The new stored states after one update pass are exactly the registry
mapped through the current-field membership test. -/
theorem updateButtons_fst (f : Nat) (bs : List ButtonData) :
    ∀ prev : List Bool, prev.length = bs.length →
      (updateButtons f bs prev).1 = bs.map (fun b => (f &&& b.bit) != 0) := by
  induction bs with
  | nil => intro prev h; simp [updateButtons]
  | cons b bs ih =>
    intro prev h
    cases prev with
    | nil => simp at h
    | cons p ps =>
      simp only [List.length_cons] at h
      simp [updateButtons, ih ps (by omega)]

/-- The transitions emitted by one update pass, as a filter over the
registry zipped with the snapshot, in registry order. -/
theorem updateButtons_snd (f : Nat) (bs : List ButtonData) :
    ∀ prev : List Bool, prev.length = bs.length →
      (updateButtons f bs prev).2 =
        (bs.zip prev).filterMap (fun bp =>
          if ((f &&& bp.1.bit) != 0) != bp.2
          then some { button := bp.1, pressed := (f &&& bp.1.bit) != 0 }
          else none) := by
  induction bs with
  | nil => intro prev h; simp [updateButtons]
  | cons b bs ih =>
    intro prev h
    cases prev with
    | nil => simp at h
    | cons p ps =>
      simp only [List.length_cons] at h
      by_cases hc : ((f &&& b.bit) != 0) = p <;>
        simp [updateButtons, List.zip_cons_cons, List.filterMap_cons, hc,
          ih ps (by omega)]

/-- Running the update pass again on its own output emits no transitions. -/
theorem updateButtons_idem (f : Nat) (bs : List ButtonData) :
    ∀ prev : List Bool, prev.length = bs.length →
      (updateButtons f bs ((updateButtons f bs prev).1)).2 = [] := by
  induction bs with
  | nil => intro prev h; simp [updateButtons]
  | cons b bs ih =>
    intro prev h
    cases prev with
    | nil => simp at h
    | cons p ps =>
      simp only [List.length_cons] at h
      simp [updateButtons, ih ps (by omega)]

/-- Every emitted transition carries a registry button, and its kind is
determined by the decoded field at that button's bit. -/
theorem updateButtons_mem (f : Nat) (bs : List ButtonData) :
    ∀ (prev : List Bool) (tr : Transition),
      tr ∈ (updateButtons f bs prev).2 →
      tr.button ∈ bs ∧ tr.pressed = ((f &&& tr.button.bit) != 0) := by
  induction bs with
  | nil => intro prev tr h; simp [updateButtons] at h
  | cons b bs ih =>
    intro prev tr h
    cases prev with
    | nil => simp [updateButtons] at h
    | cons p ps =>
      simp only [updateButtons, List.mem_append] at h
      rcases h with h1 | h2
      · by_cases hc : (((f &&& b.bit) != 0) != p) = true
        · simp only [hc, if_true, List.mem_singleton] at h1
          subst h1
          exact ⟨List.mem_cons_self b bs, rfl⟩
        · simp [hc] at h1
      · have hr := ih ps tr h2
        exact ⟨List.mem_cons_of_mem b hr.1, hr.2⟩

/-- Every registry entry has its controller in 1..4 and button in 0..4. -/
theorem buttons_data_bounds :
    ∀ b ∈ BUTTONS_DATA,
      1 ≤ b.controller ∧ b.controller ≤ 4 ∧ b.button ≤ 4 := by decide

/-- In a not-ready session with an in-flight promise, `ensureReady` changes
nothing and hands back that same promise. -/
theorem ensureReady_inflight (s : Session) (p : Nat)
    (h1 : s.isReady = false) (h2 : s.readyPromise = some p) :
    ensureReady s = (s, some p) := by
  simp [ensureReady, h1, h2]

/-- Sequential `ensureReady` calls on a not-ready session with an in-flight
promise all receive that promise and leave the session untouched. -/
theorem runEnsureReadyCalls_inflight (n : Nat) (s : Session) (p : Nat)
    (h1 : s.isReady = false) (h2 : s.readyPromise = some p) :
    runEnsureReadyCalls n s = (s, List.replicate n (some p)) := by
  induction n with
  | zero => simp [runEnsureReadyCalls]
  | succ n ih =>
    simp [runEnsureReadyCalls, ensureReady_inflight s p h1 h2, ih,
      List.replicate_succ]

/-- Claim C1: for every number N = n + 1 of callers invoking `ensureReady`
while the session is not yet ready (not ready, no promise in flight),
exactly one setup sequence is started — `setupBuzzListener` is invoked
once —, the first caller creates the in-flight promise, every later caller
receives that same promise, and since all N callers hold one and the same
promise they all observe the same outcome (all resolve or all reject
together when that single promise settles). -/
theorem ensureReady_single_setup (n : Nat) (s : Session)
    (h1 : s.isReady = false) (h2 : s.readyPromise = none) :
    (runEnsureReadyCalls (n + 1) s).1.setupsStarted = s.setupsStarted + 1
    ∧ (runEnsureReadyCalls (n + 1) s).2 =
        List.replicate (n + 1) (some s.nextPromiseId)
    ∧ ∀ r ∈ (runEnsureReadyCalls (n + 1) s).2, r = some s.nextPromiseId := by
  have hstep : ensureReady s =
      ({ s with readyPromise := some s.nextPromiseId
                nextPromiseId := s.nextPromiseId + 1
                setupsStarted := s.setupsStarted + 1 },
       some s.nextPromiseId) := by
    simp [ensureReady, h1, h2]
  have hrest := runEnsureReadyCalls_inflight n
    { s with readyPromise := some s.nextPromiseId
             nextPromiseId := s.nextPromiseId + 1
             setupsStarted := s.setupsStarted + 1 }
    s.nextPromiseId h1 rfl
  have hrun : runEnsureReadyCalls (n + 1) s =
      ({ s with readyPromise := some s.nextPromiseId
                nextPromiseId := s.nextPromiseId + 1
                setupsStarted := s.setupsStarted + 1 },
       List.replicate (n + 1) (some s.nextPromiseId)) := by
    simp [runEnsureReadyCalls, hstep, hrest, List.replicate_succ]
  refine ⟨by simp [hrun], by simp [hrun], ?_⟩
  intro r hr
  rw [hrun] at hr
  exact List.eq_of_mem_replicate hr

/-- Witness for C1 at the spec's scenario: 50 callers on a fresh session
produce exactly one setup start and all receive promise 0. -/
theorem ensureReady_single_setup_witness :
    initialSession.isReady = false ∧ initialSession.readyPromise = none ∧
    ((runEnsureReadyCalls (49 + 1) initialSession).1.setupsStarted =
        initialSession.setupsStarted + 1
    ∧ (runEnsureReadyCalls (49 + 1) initialSession).2 =
        List.replicate (49 + 1) (some initialSession.nextPromiseId)
    ∧ ∀ r ∈ (runEnsureReadyCalls (49 + 1) initialSession).2,
        r = some initialSession.nextPromiseId) :=
  ⟨rfl, rfl, ensureReady_single_setup 49 initialSession rfl rfl⟩

/-- Claim C2, counterexample: after a failed setup on a fresh session, the
catch handler leaves the phase untouched — `readyPromise` still holds the
(now rejected) promise 0 and the next `ensureReady` call hands back that
same old promise without starting a fresh connection attempt
(`setupsStarted` stays 1, no new promise id is allotted), contradicting the
claimed reset to NotStarted that would make a subsequent call retry. -/
theorem setupFailure_no_reset_counterexample :
    (setupCatchHandler (ensureReady initialSession).1
        "Dongle not found. Check connection and VID/PID.").session.readyPromise
      = some 0
    ∧ (ensureReady (setupCatchHandler (ensureReady initialSession).1
        "Dongle not found. Check connection and VID/PID.").session).2 = some 0
    ∧ (ensureReady (setupCatchHandler (ensureReady initialSession).1
        "Dongle not found. Check connection and VID/PID.").session).1.setupsStarted
      = 1 := by
  refine ⟨rfl, rfl, rfl⟩

/-- Claim C2 as amended: on any error during discovery, claiming, or
channel setup, the shared promise rejects for all current waiters with a
CustomError and an Error event is published; the lifecycle phase however
does not reset — the catch handler writes no session field, so
`readyPromise` keeps the rejected promise and a subsequent `ensureReady`
returns that same failed promise instead of starting a fresh attempt. -/
theorem setupFailure_effects (s : Session) (msg : String) (p : Nat)
    (h1 : s.isReady = false) (h2 : s.readyPromise = some p) :
    (setupCatchHandler s msg).session = s
    ∧ (setupCatchHandler s msg).emittedEvents = [EVENTS_ERROR]
    ∧ (setupCatchHandler s msg).rejectsWith =
        some (if msg = "" then "Setup failed" else msg)
    ∧ ensureReady (setupCatchHandler s msg).session = (s, some p) := by
  refine ⟨rfl, rfl, rfl, ?_⟩
  simpa [setupCatchHandler] using ensureReady_inflight s p h1 h2

/-- A concrete session after one started-then-failed setup attempt:
promise 0 in flight, one setup started, not ready. -/
def failedSession : Session :=
  { currentStates := List.replicate 20 false
    isReady := false
    readyPromise := some 0
    nextPromiseId := 1
    setupsStarted := 1
    ifaceClaimed := false }

/-- Witness for the amended C2 at a concrete failed-setup session. -/
theorem setupFailure_effects_witness :
    failedSession.isReady = false ∧
    failedSession.readyPromise = some 0 ∧
    ((setupCatchHandler failedSession "boom").session = failedSession
    ∧ (setupCatchHandler failedSession "boom").emittedEvents = [EVENTS_ERROR]
    ∧ (setupCatchHandler failedSession "boom").rejectsWith =
        some (if "boom" = "" then "Setup failed" else "boom")
    ∧ ensureReady (setupCatchHandler failedSession "boom").session =
        (failedSession, some 0)) :=
  ⟨rfl, rfl, setupFailure_effects failedSession "boom" 0 rfl rfl⟩

/-- Claim C3: a report of length at least 5 has its pressed-bit field
computed as the little-endian 16-bit value at offset 2 bitwise-ORed with
the byte at offset 4 shifted left 16 bits, and that field drives the update
pass; a report shorter than 5 bytes is discarded silently — the stored
states come back unchanged and nothing at all is emitted. -/
theorem handleData_decode_and_truncated (data : List Nat) (current : List Bool) :
    (data.length < 5 → handleData data current = (current, []))
    ∧ (5 ≤ data.length → handleData data current =
        updateButtons ((data.getD 2 0 + data.getD 3 0 * 256)
            ||| (data.getD 4 0 <<< 16))
          BUTTONS_DATA current) := by
  constructor
  · intro h
    simp [handleData, h]
  · intro h
    have h5 : ¬ data.length < 5 := by omega
    simp [handleData, h5, decodeField, readUInt16LE, readUInt8]

/-- Witness for C3: a 2-byte keep-alive report is dropped with no state
change and no emission, and a 5-byte report decodes to the OR formula. -/
theorem handleData_decode_and_truncated_witness :
    (([0, 0] : List Nat).length < 5
      ∧ handleData [0, 0] [true, false] = ([true, false], []))
    ∧ (5 ≤ ([0, 0, 1, 0, 1] : List Nat).length
      ∧ handleData [0, 0, 1, 0, 1] (List.replicate 20 false) =
          updateButtons ((([0, 0, 1, 0, 1] : List Nat).getD 2 0
              + ([0, 0, 1, 0, 1] : List Nat).getD 3 0 * 256)
              ||| (([0, 0, 1, 0, 1] : List Nat).getD 4 0 <<< 16))
            BUTTONS_DATA (List.replicate 20 false)) :=
  ⟨⟨by decide,
      (handleData_decode_and_truncated [0, 0] [true, false]).1 (by decide)⟩,
   ⟨by decide,
      (handleData_decode_and_truncated [0, 0, 1, 0, 1]
        (List.replicate 20 false)).2 (by decide)⟩⟩

/-- Claim C4: one update pass over the 20-entry registry overwrites every
stored entry with the new field's value at that button's bit, emits a
transition exactly for the buttons whose new value differs from the stored
snapshot entry — several changes in one report all come out of this single
pass — in registry order (the zip with the registry keeps the registry's
order), and running the pass again with the same field on the updated
store emits zero transitions. -/
theorem update_transitions_spec (f : Nat) (prev : List Bool)
    (h : prev.length = BUTTONS_DATA.length) :
    BUTTONS_DATA.length = 20
    ∧ (updateButtons f BUTTONS_DATA prev).1 =
        BUTTONS_DATA.map (fun b => (f &&& b.bit) != 0)
    ∧ (updateButtons f BUTTONS_DATA prev).2 =
        (BUTTONS_DATA.zip prev).filterMap (fun bp =>
          if ((f &&& bp.1.bit) != 0) != bp.2
          then some { button := bp.1, pressed := (f &&& bp.1.bit) != 0 }
          else none)
    ∧ (updateButtons f BUTTONS_DATA ((updateButtons f BUTTONS_DATA prev).1)).2
        = [] :=
  ⟨rfl, updateButtons_fst f BUTTONS_DATA prev h,
   updateButtons_snd f BUTTONS_DATA prev h,
   updateButtons_idem f BUTTONS_DATA prev h⟩

/-- Witness for C4 at field 0x11 (C1_RED and C1_BLUE) over the all-false
store: the conjuncts at a concrete input. -/
theorem update_transitions_spec_witness :
    (List.replicate 20 false).length = BUTTONS_DATA.length
    ∧ (BUTTONS_DATA.length = 20
    ∧ (updateButtons 0x11 BUTTONS_DATA (List.replicate 20 false)).1 =
        BUTTONS_DATA.map (fun b => (0x11 &&& b.bit) != 0)
    ∧ (updateButtons 0x11 BUTTONS_DATA (List.replicate 20 false)).2 =
        (BUTTONS_DATA.zip (List.replicate 20 false)).filterMap (fun bp =>
          if ((0x11 &&& bp.1.bit) != 0) != bp.2
          then some { button := bp.1, pressed := (0x11 &&& bp.1.bit) != 0 }
          else none)
    ∧ (updateButtons 0x11 BUTTONS_DATA
        ((updateButtons 0x11 BUTTONS_DATA (List.replicate 20 false)).1)).2
        = []) :=
  ⟨by decide, update_transitions_spec 0x11 (List.replicate 20 false) (by decide)⟩

/-- A concrete ready session holding a claimed interface whose stored state
records button 0 as pressed. -/
def pressedSession : Session :=
  { currentStates := true :: List.replicate 19 false
    isReady := true
    readyPromise := some 0
    nextPromiseId := 1
    setupsStarted := 1
    ifaceClaimed := true }

/-- Claim C5, counterexample: `close` never assigns `currentStates`, so on
a session whose entry 0 reads pressed, entry 0 still reads pressed after
`close` resolves — not every StateVector entry reads as not-pressed. -/
theorem close_keeps_states_counterexample :
    pressedSession.ifaceClaimed = true
    ∧ (close pressedSession).currentStates.getD 0 false = true
    ∧ ¬ (∀ b ∈ (close pressedSession).currentStates, b = false) := by decide

/-- Claim C5 as amended: after `close()` resolves on a session with a
claimed interface, the lifecycle phase is back to NotStarted (`isReady`
false, `readyPromise` cleared), so a subsequent `onPress` subscription
triggers a fresh `ensureReady` cycle (a new setup is started); the stored
button states however are not cleared — they keep their pre-close values. -/
theorem close_resets_lifecycle_not_states (s : Session)
    (h : s.ifaceClaimed = true) :
    (close s).isReady = false
    ∧ (close s).readyPromise = none
    ∧ (close s).currentStates = s.currentStates
    ∧ (ensureReady (close s)).2 = some s.nextPromiseId
    ∧ (onPressSubscribe (close s)).setupsStarted = s.setupsStarted + 1 := by
  simp [close, h, ensureReady, onPressSubscribe]

/-- Witness for the amended C5 at the concrete pressed session. -/
theorem close_resets_lifecycle_not_states_witness :
    pressedSession.ifaceClaimed = true ∧
    ((close pressedSession).isReady = false
    ∧ (close pressedSession).readyPromise = none
    ∧ (close pressedSession).currentStates = pressedSession.currentStates
    ∧ (ensureReady (close pressedSession)).2 = some pressedSession.nextPromiseId
    ∧ (onPressSubscribe (close pressedSession)).setupsStarted =
        pressedSession.setupsStarted + 1) :=
  ⟨rfl, close_resets_lifecycle_not_states pressedSession rfl⟩

/-- Claim C6, counterexample: the event object built by `formatEvent` for a
press of the first registry button carries no lowercase key named after the
button identifier — looking it up yields nothing, while the capitalized
key Name holds the identifier — so the delivered object does not have the
claimed lowercase field set. -/
theorem formatEvent_no_lowercase_name_counterexample :
    (formatEvent (BUTTONS_DATA.getD 0 default) EVENTS_PRESS).lookup "name"
      = none
    ∧ (formatEvent (BUTTONS_DATA.getD 0 default) EVENTS_PRESS).lookup "Name"
      = some (JsValue.str "C1_RED") := by decide

/-- Claim C6 as amended: every button event delivered to a consumer
callback is an object with keys controller (in 1..4), button (in 0..4),
Name (capitalized in the source), color, pressed and state, where state is
exactly "pressed" for a press and "released" for a release, and pressed is
true exactly when state is "pressed". -/
theorem formatEvent_shape (f : Nat) (prev : List Bool) (tr : Transition)
    (h : tr ∈ (updateButtons f BUTTONS_DATA prev).2) :
    formatEvent tr.button (transitionType tr) =
      [ ("controller", JsValue.num tr.button.controller),
        ("button", JsValue.num tr.button.button),
        ("Name", JsValue.str tr.button.name),
        ("color", JsValue.str tr.button.color),
        ("pressed", JsValue.bool tr.pressed),
        ("state", JsValue.str (if tr.pressed then "pressed" else "released")) ]
    ∧ 1 ≤ tr.button.controller ∧ tr.button.controller ≤ 4
    ∧ tr.button.button ≤ 4
    ∧ (tr.pressed = true ↔
        (if tr.pressed then "pressed" else "released") = "pressed") := by
  obtain ⟨hmem, hpr⟩ := updateButtons_mem f BUTTONS_DATA prev tr h
  obtain ⟨hc1, hc2, hb⟩ := buttons_data_bounds tr.button hmem
  refine ⟨?_, hc1, hc2, hb, ?_⟩
  · obtain ⟨b, p⟩ := tr
    cases p <;> rfl
  · obtain ⟨b, p⟩ := tr
    cases p <;> simp

/-- The press transition of the first registry button. -/
def firstPress : Transition :=
  { button := { name := "C1_RED", color := "red", controller := 1,
                button := 0, bit := 1 }
    pressed := true }

/-- Witness for the amended C6 at the press of C1_RED produced by field 1
over the all-false store. -/
theorem formatEvent_shape_witness :
    firstPress ∈ (updateButtons 1 BUTTONS_DATA (List.replicate 20 false)).2
    ∧ (formatEvent firstPress.button (transitionType firstPress) =
      [ ("controller", JsValue.num firstPress.button.controller),
        ("button", JsValue.num firstPress.button.button),
        ("Name", JsValue.str firstPress.button.name),
        ("color", JsValue.str firstPress.button.color),
        ("pressed", JsValue.bool firstPress.pressed),
        ("state", JsValue.str
          (if firstPress.pressed then "pressed" else "released")) ]
    ∧ 1 ≤ firstPress.button.controller ∧ firstPress.button.controller ≤ 4
    ∧ firstPress.button.button ≤ 4
    ∧ (firstPress.pressed = true ↔
        (if firstPress.pressed then "pressed" else "released") = "pressed")) :=
  ⟨by decide,
   formatEvent_shape 1 (List.replicate 20 false) firstPress (by decide)⟩

/-- Claim C7: with the HID device available, `privateSetLeds` first writes
the 8-byte primary report; the 6-byte fallback report is written exactly
when the primary write is rejected; when both writes fail, exactly one
Error event is published and nothing is retried; and on every input
(device present or not) the call returns normally — no failure escapes as
an exception. -/
theorem privateSetLeds_spec (h : Bool) (w : List Nat → Bool)
    (p1 p2 p3 p4 : Bool) :
    (∃ r, privateSetLeds h w p1 p2 p3 p4 = Except.ok r)
    ∧ privateSetLeds true w p1 p2 p3 p4 = Except.ok
        { writes :=
            if w (ledPrimaryReport p1 p2 p3 p4)
            then [ledPrimaryReport p1 p2 p3 p4]
            else [ledPrimaryReport p1 p2 p3 p4, ledFallbackReport p1 p2 p3 p4]
          errorEvents :=
            if w (ledPrimaryReport p1 p2 p3 p4)
                || w (ledFallbackReport p1 p2 p3 p4)
            then 0 else 1
          warned := false } := by
  constructor
  · cases h with
    | false => exact ⟨_, rfl⟩
    | true =>
      by_cases hp : w (ledPrimaryReport p1 p2 p3 p4) = true <;>
        by_cases hf : w (ledFallbackReport p1 p2 p3 p4) = true <;>
        simp [privateSetLeds, hp, hf]
  · by_cases hp : w (ledPrimaryReport p1 p2 p3 p4) = true <;>
      by_cases hf : w (ledFallbackReport p1 p2 p3 p4) = true <;>
      simp [privateSetLeds, hp, hf]

/-- Claim C8, counterexample: publishing to two listeners where the first
throws invokes only that one listener — the second listener in the list is
never reached and emit itself ends abnormally — so a throwing listener
does prevent delivery to subsequent listeners. -/
theorem emit_stops_at_throwing_listener_counterexample :
    (emitToListeners [fun _ => false, fun _ => true] 0).1 = 1
    ∧ ([fun (_ : Nat) => false, fun _ => true] : List (Nat → Bool)).length = 2
    ∧ (emitToListeners [fun _ => false, fun _ => true] 0).2 = false :=
  ⟨rfl, rfl, rfl⟩

/-- Claim C8 as amended: when every listener before a throwing listener
returns normally, `emit` invokes the earlier listeners in order plus the
throwing one, and the exception propagates out of the publish call — no
listener after the throwing one is invoked for that event. -/
theorem emit_exception_propagates :
    ∀ (pre post : List (Nat → Bool)) (a : Nat),
      (∀ l ∈ pre, l a = true) →
      emitToListeners (pre ++ (fun _ => false) :: post) a =
        (pre.length + 1, false) := by
  intro pre
  induction pre with
  | nil =>
    intro post a _
    simp [emitToListeners]
  | cons l ls ih =>
    intro post a hpre
    have hl : l a = true := hpre l (List.mem_cons_self l ls)
    have hrest : ∀ g ∈ ls, g a = true :=
      fun g hg => hpre g (List.mem_cons_of_mem l hg)
    simp [emitToListeners, hl, ih post a hrest]

/-- Witness for the amended C8: one well-behaved listener, then a throwing
one, then one more — only the first two are invoked. -/
theorem emit_exception_propagates_witness :
    (∀ l ∈ ([fun _ => true] : List (Nat → Bool)), l 0 = true)
    ∧ emitToListeners
        (([fun _ => true] : List (Nat → Bool)) ++ (fun _ => false) :: [fun _ => true]) 0 =
      (([fun (_ : Nat) => true] : List (Nat → Bool)).length + 1, false) :=
  ⟨by simp, emit_exception_propagates [fun _ => true] [fun _ => true] 0 (by simp)⟩

/-- Claim C9: `setLedsarray` on a list that is not exactly 4 booleans
throws the InvalidArgument CustomError before any device interaction — the
session is untouched (in particular no setup attempt is started) and no
LED report is written. -/
theorem setLedsarray_invalid_argument (players : List Bool) (s : Session)
    (setupSucceeds hidAvailable : Bool) (w : List Nat → Bool)
    (h : players.length ≠ 4) :
    (setLedsarray players s setupSucceeds hidAvailable w).thrown =
        some "Invalid array: must be boolean[4]"
    ∧ (setLedsarray players s setupSucceeds hidAvailable w).session = s
    ∧ (setLedsarray players s setupSucceeds hidAvailable w).session.setupsStarted
        = s.setupsStarted
    ∧ (setLedsarray players s setupSucceeds hidAvailable w).writes = [] := by
  simp [setLedsarray, h]

/-- Witness for C9 at the spec's scenario: a 2-element array fails with
InvalidArgument, no setup, no write. -/
theorem setLedsarray_invalid_argument_witness :
    ([true, false] : List Bool).length ≠ 4
    ∧ ((setLedsarray [true, false] initialSession true true
          (fun _ => true)).thrown = some "Invalid array: must be boolean[4]"
    ∧ (setLedsarray [true, false] initialSession true true
          (fun _ => true)).session = initialSession
    ∧ (setLedsarray [true, false] initialSession true true
          (fun _ => true)).session.setupsStarted = initialSession.setupsStarted
    ∧ (setLedsarray [true, false] initialSession true true
          (fun _ => true)).writes = []) :=
  ⟨by decide,
   setLedsarray_invalid_argument [true, false] initialSession true true
     (fun _ => true) (by decide)⟩

/-- Claim C10: after the data handler processes any report of length at
least 5, the stored state is fully determined by that report alone — it
equals the registry mapped through the decoded field, entry i holds
whether the decoded field intersects registry entry i's bit, and two runs
from different previous stores agree — no stale pressed flag survives. -/
theorem state_determined_by_latest_report (data : List Nat) (prev : List Bool)
    (h5 : 5 ≤ data.length) (hlen : prev.length = BUTTONS_DATA.length) :
    (handleData data prev).1 =
        BUTTONS_DATA.map (fun b => (decodeField data &&& b.bit) != 0)
    ∧ (∀ (i : Nat) (b : ButtonData), BUTTONS_DATA[i]? = some b →
        ((handleData data prev).1)[i]? =
          some ((decodeField data &&& b.bit) != 0))
    ∧ ∀ prev2, prev2.length = BUTTONS_DATA.length →
        (handleData data prev).1 = (handleData data prev2).1 := by
  have hno : ¬ data.length < 5 := by omega
  have hmap : ∀ q : List Bool, q.length = BUTTONS_DATA.length →
      (handleData data q).1 =
        BUTTONS_DATA.map (fun b => (decodeField data &&& b.bit) != 0) := by
    intro q hq
    simp [handleData, hno,
      updateButtons_fst (decodeField data) BUTTONS_DATA q hq]
  refine ⟨hmap prev hlen, ?_, ?_⟩
  · intro i b hib
    rw [hmap prev hlen]
    simp [List.getElem?_map, hib]
  · intro prev2 hlen2
    rw [hmap prev hlen, hmap prev2 hlen2]

/-- Witness for C10: the report 00 00 01 00 01 over the all-false store. -/
theorem state_determined_by_latest_report_witness :
    5 ≤ ([0, 0, 1, 0, 1] : List Nat).length
    ∧ (List.replicate 20 false).length = BUTTONS_DATA.length
    ∧ ((handleData [0, 0, 1, 0, 1] (List.replicate 20 false)).1 =
        BUTTONS_DATA.map (fun b => (decodeField [0, 0, 1, 0, 1] &&& b.bit) != 0)
    ∧ (∀ (i : Nat) (b : ButtonData), BUTTONS_DATA[i]? = some b →
        ((handleData [0, 0, 1, 0, 1] (List.replicate 20 false)).1)[i]? =
          some ((decodeField [0, 0, 1, 0, 1] &&& b.bit) != 0))
    ∧ ∀ prev2, prev2.length = BUTTONS_DATA.length →
        (handleData [0, 0, 1, 0, 1] (List.replicate 20 false)).1 =
          (handleData [0, 0, 1, 0, 1] prev2).1) :=
  ⟨by decide, by decide,
   state_determined_by_latest_report [0, 0, 1, 0, 1] (List.replicate 20 false)
     (by decide) (by decide)⟩

end Buzzer
